import Mathlib

/-!
Shallow embedding of the dynamic form composition/validation engine of the
checklist form modal (`FormModal`): question filtering by work task,
step planning over categories, step validation, navigation gating,
submission payload assembly, and the submit-mutation callbacks.

JavaScript values stored in the `responses` record are modelled by `Val`;
a missing key in the record reads as `Val.vUndef`, matching JS property
lookup. Nullable numeric ids (`number | null`) are `Option Int`; JS
truthiness of such an id (`!x` in the source) is `truthyId`, which is
false for `null` and for `0`.
-/

/-- A JavaScript value as stored in `formData.responses` (`Record<string, any>`):
`undefined`, `null`, a boolean, a number, or a string. -/
inductive Val where
  | vUndef : Val
  | vNull : Val
  | vBool : Bool → Val
  | vNum : Int → Val
  | vStr : String → Val
  deriving DecidableEq, Repr

/-- Checklist configuration flags (from `@shared/schema`, fields used by the modal). -/
structure Checklist where
  id : Int
  includeWorkTasks : Bool
  includeWorkStations : Bool
  includeShifts : Bool
  deriving DecidableEq, Repr

/-- A work task; `hasStations` controls whether a station must be chosen. -/
structure WorkTask where
  id : Int
  hasStations : Bool
  deriving DecidableEq, Repr

/-- A question: text, type string (`"check"`, `"text"`, `"val"`, `"nummer"`, ...),
required flag and owning category. -/
structure Question where
  id : Int
  text : String
  type : String
  isRequired : Bool
  categoryId : Int
  deriving DecidableEq, Repr

/-- A category of questions. -/
structure Category where
  id : Int
  name : String
  deriving DecidableEq, Repr

/-- Join entity linking a question to a work task (`QuestionWorkTask`). -/
structure QuestionWorkTask where
  questionId : Int
  workTaskId : Int
  deriving DecidableEq, Repr

/-- The mutable `formData` state of the modal. `responses` is an association
list modelling the JS record keyed by question id. -/
structure FormData where
  checklistId : Option Int
  operatorName : String
  workTaskId : Option Int
  workStationId : Option Int
  shiftId : Option Int
  responses : List (Int × Val)
  deriving DecidableEq, Repr

/-- The resolved data environment of the modal: `currentChecklist`
(`checklists.find(c => c.id === formData.checklistId)`), the filtered
`workTasks` list, and the fetched `categories`, `questions` and
`allQuestionWorkTasks` collections. -/
structure Env where
  currentChecklist : Option Checklist
  workTasks : List WorkTask
  categories : List Category
  questions : List Question
  allQuestionWorkTasks : List QuestionWorkTask
  deriving DecidableEq, Repr

/-- JS `String.prototype.trim`: strip leading and trailing whitespace. -/
def strTrim (s : String) : String :=
  String.mk (((s.data.dropWhile Char.isWhitespace).reverse.dropWhile
      Char.isWhitespace).reverse)

/-- JS truthiness of a `number | null` id: `null` and `0` are falsy. -/
def truthyId : Option Int → Bool
  | none => false
  | some v => v != 0

/-- `formData.responses[question.id]`: JS record lookup, `undefined` when absent. -/
def getResponse (fd : FormData) (qid : Int) : Val :=
  (List.lookup qid fd.responses).getD Val.vUndef

/-- `response === undefined || response === null || response === ""` from the
validation of non-checkbox question types. -/
def respEmpty (fd : FormData) (qid : Int) : Bool :=
  getResponse fd qid == Val.vUndef || getResponse fd qid == Val.vNull ||
    getResponse fd qid == Val.vStr ""

/-- The shared per-question test of the validation loops in
`validateCurrentStep` and `canProceed`: a required question of type
`"check"` is unsatisfied unless its response is exactly `true`; a required
question of any other type is unsatisfied when its response is empty. -/
def questionMissingB (fd : FormData) (q : Question) : Bool :=
  q.isRequired &&
    (if q.type = "check" then !(getResponse fd q.id == Val.vBool true)
     else respEmpty fd q.id)

/-- The label `Fråga: "<text>"` pushed onto `missingFields` for a question. -/
def qLabel (q : Question) : String :=
  "Fråga: \"" ++ q.text ++ "\""

/-- `currentChecklist?.includeWorkTasks` (false when no checklist resolved). -/
def includeWT (env : Env) : Bool :=
  match env.currentChecklist with
  | some c => c.includeWorkTasks
  | none => false

/-- `currentChecklist?.includeWorkStations`. -/
def includeWS (env : Env) : Bool :=
  match env.currentChecklist with
  | some c => c.includeWorkStations
  | none => false

/-- `currentChecklist?.includeShifts`. -/
def includeSh (env : Env) : Bool :=
  match env.currentChecklist with
  | some c => c.includeShifts
  | none => false

/-- `allQuestionWorkTasks.filter(qwt => qwt.questionId === question.id)`. -/
def linksFor (env : Env) (q : Question) : List QuestionWorkTask :=
  env.allQuestionWorkTasks.filter (fun l => l.questionId == q.id)

/-- `filteredQuestions`: all questions when no work task is selected or the
checklist does not use work tasks; otherwise keep a question iff it has no
work-task links or one of its links carries the selected work task. -/
def filteredQuestions (env : Env) (fd : FormData) : List Question :=
  if !truthyId fd.workTaskId || !includeWT env then
    env.questions
  else
    env.questions.filter (fun q =>
      let qwts := linksFor env q
      if qwts.length = 0 then true
      else qwts.any (fun l => fd.workTaskId == some l.workTaskId))

/-- `categoriesWithQuestions`: the categories having at least one filtered
question with matching `categoryId`. -/
def categoriesWithQuestions (env : Env) (fd : FormData) : List Category :=
  env.categories.filter (fun c =>
    (filteredQuestions env fd).any (fun q => q.categoryId == c.id))

/-- `totalSteps = 1 + categoriesWithQuestions.length`. -/
def totalSteps (env : Env) (fd : FormData) : Nat :=
  1 + (categoriesWithQuestions env fd).length

/-- The `missingFields` list collected by `validateCurrentStep` at a given
`currentStep`. Step 2 is the identification step; steps from 3 on are
question steps indexed into `categoriesWithQuestions`. -/
def validateMissing (env : Env) (fd : FormData) (currentStep : Nat) : List String :=
  if currentStep = 2 then
    (if strTrim fd.operatorName == "" then ["Operatörsnamn"] else [])
    ++ (if includeWT env && !truthyId fd.workTaskId then ["Arbetsuppgift"] else [])
    ++ (if includeWS env && truthyId fd.workTaskId then
          (if (env.workTasks.find? (fun t => fd.workTaskId == some t.id)).any
                (fun t => t.hasStations && !truthyId fd.workStationId)
           then ["Arbetsstation"] else [])
        else [])
    ++ (if includeSh env && !truthyId fd.shiftId then ["Skift"] else [])
  else if 3 ≤ currentStep then
    match (categoriesWithQuestions env fd)[currentStep - 3]? with
    | some category =>
        ((filteredQuestions env fd).filter
            (fun q => q.categoryId == category.id)).foldl
          (fun acc q => if questionMissingB fd q then acc ++ [qLabel q] else acc) []
    | none => []
  else []

/-- The boolean result of `validateCurrentStep`: true iff no missing fields. -/
def validateCurrentStep (env : Env) (fd : FormData) (currentStep : Nat) : Bool :=
  (validateMissing env fd currentStep).isEmpty

/-- `canProceed`: the navigation-gating check. On the identification step it
requires a non-empty (untrimmed) operator name and the same work-task /
work-station / shift conditions as the validator; on question steps it checks
the required questions of the current category over the UNFILTERED `questions`
list, and allows proceeding when the category index is out of range. -/
def canProceed (env : Env) (fd : FormData) (currentStep : Nat) : Bool :=
  if currentStep = 2 then
    !(fd.operatorName == "")
    && !(includeWT env && !truthyId fd.workTaskId)
    && !(includeWS env && truthyId fd.workTaskId &&
          ((env.workTasks.find? (fun t => fd.workTaskId == some t.id)).any
            (fun t => t.hasStations && !truthyId fd.workStationId)))
    && !(includeSh env && !truthyId fd.shiftId)
  else if 3 ≤ currentStep then
    match (categoriesWithQuestions env fd)[currentStep - 3]? with
    | none => true
    | some category =>
        (env.questions.filter (fun q => q.categoryId == category.id)).all
          (fun q => !questionMissingB fd q)
  else true

/-- The outcome of clicking "next": blocked by validation, advance one step,
or submit. -/
inductive NextAction where
  | blocked : NextAction
  | advance : Nat → NextAction
  | submit : NextAction
  deriving DecidableEq, Repr

/-- `handleNext`: validate the current step; if valid, advance while
`currentStep < totalSteps + 1`, otherwise submit. -/
def handleNext (env : Env) (fd : FormData) (currentStep : Nat) : NextAction :=
  if !validateCurrentStep env fd currentStep then NextAction.blocked
  else if currentStep < totalSteps env fd + 1 then NextAction.advance (currentStep + 1)
  else NextAction.submit

/-- The submission payload built by `handleSubmit`. For the three conditional
ids, `none` means the key is absent from the payload and `some v` means the
key is present with value `v` (itself possibly null). -/
structure SubmitData where
  checklistId : Option Int
  operatorName : String
  responses : List (Int × Val)
  isCompleted : Bool
  workTaskId : Option (Option Int)
  workStationId : Option (Option Int)
  shiftId : Option (Option Int)
  deriving DecidableEq, Repr

/-- `handleSubmit`: always include `checklistId`, `operatorName`, `responses`
and `isCompleted: true`; include each of `workTaskId` / `workStationId` /
`shiftId` only when the corresponding checklist flag is set. -/
def handleSubmit (env : Env) (fd : FormData) : SubmitData :=
  { checklistId := fd.checklistId
    operatorName := fd.operatorName
    responses := fd.responses
    isCompleted := true
    workTaskId := if includeWT env then some fd.workTaskId else none
    workStationId := if includeWS env then some fd.workStationId else none
    shiftId := if includeSh env then some fd.shiftId else none }

/-- The modal's mutable state: the step counter, the form data, and whether
the dialog is open. -/
structure ModalState where
  currentStep : Nat
  formData : FormData
  isOpen : Bool
  deriving DecidableEq, Repr

/-- The initial `formData` (`preselectedChecklistId || null` for the
checklist id, everything else empty). -/
def initialFormData (pre : Option Int) : FormData :=
  { checklistId := if truthyId pre then pre else none
    operatorName := ""
    workTaskId := none
    workStationId := none
    shiftId := none
    responses := [] }

/-- `resetForm`: set `currentStep` back to 2 and `formData` to its initial value. -/
def resetForm (pre : Option Int) (st : ModalState) : ModalState :=
  { st with currentStep := 2, formData := initialFormData pre }

/-- The `onSuccess` callback of `submitMutation`: toast, `resetForm()`,
`onClose()`. Returns the new state and the toast titles raised. -/
def onSubmitSuccess (pre : Option Int) (st : ModalState) : ModalState × List String :=
  ({ resetForm pre st with isOpen := false }, ["Kontroll sparad!"])

/-- The `onError` callback of `submitMutation`: only a toast; the state is
untouched. -/
def onSubmitError (st : ModalState) : ModalState × List String :=
  (st, ["Fel"])

/-! ### Concrete instances used by witnesses and counterexamples -/

/-- A checklist using no optional identification dimensions. -/
def cl0 : Checklist :=
  { id := 1, includeWorkTasks := false, includeWorkStations := false,
    includeShifts := false }

/-- A checklist using work tasks and work stations but not shifts. -/
def cl2 : Checklist :=
  { id := 2, includeWorkTasks := true, includeWorkStations := true,
    includeShifts := false }

/-- Environment with checklist `cl0` and no data. -/
def env0 : Env :=
  { currentChecklist := some cl0, workTasks := [], categories := [],
    questions := [], allQuestionWorkTasks := [] }

/-- Form state with a whitespace-only operator name. -/
def fd0 : FormData :=
  { checklistId := some 1, operatorName := " ", workTaskId := none,
    workStationId := none, shiftId := none, responses := [] }

/-- A category. -/
def cat1 : Category := { id := 10, name := "Säkerhet" }

/-- A required checkbox question in `cat1`. -/
def q1 : Question :=
  { id := 100, text := "Skyddsutrustning kontrollerad", type := "check",
    isRequired := true, categoryId := 10 }

/-- A required number question in `cat1`. -/
def q2 : Question :=
  { id := 101, text := "Antal avvikelser", type := "nummer",
    isRequired := true, categoryId := 10 }

/-- A required yes/no question in `cat1`, linked to work task 2 only. -/
def q3 : Question :=
  { id := 102, text := "Maskin kalibrerad", type := "ja_nej",
    isRequired := true, categoryId := 10 }

/-- Environment with checklist `cl0`, one category and two questions. -/
def env1 : Env :=
  { currentChecklist := some cl0, workTasks := [], categories := [cat1],
    questions := [q1, q2], allQuestionWorkTasks := [] }

/-- Form state with answered number question `q2` (value `0`) and
unanswered checkbox `q1`. -/
def fd1 : FormData :=
  { checklistId := some 1, operatorName := "Anna", workTaskId := none,
    workStationId := none, shiftId := none,
    responses := [(101, Val.vNum 0)] }

/-- A work task requiring a station. -/
def wtA : WorkTask := { id := 1, hasStations := true }

/-- Environment with checklist `cl2`, work task `wtA`, one category and
three questions, `q3` linked to (unavailable) work task 2. -/
def env2 : Env :=
  { currentChecklist := some cl2, workTasks := [wtA], categories := [cat1],
    questions := [q1, q2, q3],
    allQuestionWorkTasks := [{ questionId := 102, workTaskId := 2 }] }

/-- Form state with work task 1 selected and no station selected. -/
def fd2 : FormData :=
  { checklistId := some 2, operatorName := "Anna", workTaskId := some 1,
    workStationId := none, shiftId := none, responses := [] }

/-- Form state with a valid identification step for checklist `cl0`. -/
def fd3 : FormData :=
  { checklistId := some 1, operatorName := "Anna", workTaskId := none,
    workStationId := none, shiftId := none, responses := [] }

/-! ### Helper lemmas -/

/-- Folding a conditional label push over a list collects exactly the labels
of the entries satisfying the condition, in order. -/
lemma foldl_pushIf_eq {α : Type} (p : α → Bool) (f : α → String) :
    ∀ (l : List α) (acc : List String),
      l.foldl (fun a q => if p q then a ++ [f q] else a) acc
        = acc ++ (l.filter p).map f := by
  intro l
  induction l with
  | nil => intro acc; simp
  | cons x xs ih =>
      intro acc
      cases h : p x <;> simp [List.foldl_cons, h, ih, List.filter_cons]

/-- When the checklist does not use work tasks or no work task is selected,
the question filter is the identity. -/
lemma filteredQuestions_inactive (env : Env) (fd : FormData)
    (h : includeWT env = false ∨ truthyId fd.workTaskId = false) :
    filteredQuestions env fd = env.questions := by
  unfold filteredQuestions
  rcases h with h | h <;> simp [h]

/-- C3: the planned category steps are exactly the categories with at least one
filtered question of matching `categoryId`, in the order of the supplied
category list, and `totalSteps` is one more than their number. -/
theorem c3_step_plan (env : Env) (fd : FormData) :
    (categoriesWithQuestions env fd).Sublist env.categories ∧
    (∀ c : Category, c ∈ categoriesWithQuestions env fd ↔
      c ∈ env.categories ∧ ∃ q ∈ filteredQuestions env fd, q.categoryId = c.id) ∧
    totalSteps env fd = 1 + (categoriesWithQuestions env fd).length := by
  refine ⟨List.filter_sublist _, ?_, rfl⟩
  intro c
  simp [categoriesWithQuestions, List.mem_filter, List.any_eq_true]

/-- C2: the question filter returns the questions unchanged when inactive;
otherwise it keeps a question iff it has no work-task links or some link
carries the selected work-task id. -/
theorem c2_question_filter (env : Env) (fd : FormData) :
    ((includeWT env = false ∨ truthyId fd.workTaskId = false) →
      filteredQuestions env fd = env.questions) ∧
    (includeWT env = true → truthyId fd.workTaskId = true →
      ∀ q : Question, q ∈ filteredQuestions env fd ↔
        q ∈ env.questions ∧
          (linksFor env q = [] ∨
            ∃ l ∈ linksFor env q, fd.workTaskId = some l.workTaskId)) := by
  refine ⟨filteredQuestions_inactive env fd, ?_⟩
  intro hWT htr q
  unfold filteredQuestions
  simp only [hWT, htr, Bool.not_true, Bool.false_or, Bool.or_self, if_neg,
    Bool.false_eq_true, not_false_iff, ite_false]
  rw [List.mem_filter]
  by_cases hlen : (linksFor env q).length = 0
  · simp [hlen, List.length_eq_zero.mp hlen]
  · have hne : linksFor env q ≠ [] := fun hc => hlen (by simp [hc])
    simp [hlen, hne, List.any_eq_true]

/-- C2 witness: with `cl0` (no work tasks) the filter is the identity, and in
the active case `q3` (linked only to work task 2) is kept iff one of its links
matches the selected task. -/
theorem c2_question_filter_witness :
    filteredQuestions env0 fd0 = env0.questions ∧
    (q3 ∈ filteredQuestions env2 fd2 ↔
      q3 ∈ env2.questions ∧
        (linksFor env2 q3 = [] ∨
          ∃ l ∈ linksFor env2 q3, fd2.workTaskId = some l.workTaskId)) :=
  ⟨(c2_question_filter env0 fd0).1 (Or.inl (by decide)),
   (c2_question_filter env2 fd2).2 (by decide) (by decide) q3⟩

/-- C8: the submit-mutation error callback leaves the whole modal state
(step, form data, open flag) unchanged; the success callback resets the step
to 2 and the form data to its initial value and closes the modal. -/
theorem c8_submit_callbacks (pre : Option Int) (st : ModalState) :
    (onSubmitError st).1 = st ∧
    (onSubmitSuccess pre st).1.currentStep = 2 ∧
    (onSubmitSuccess pre st).1.formData = initialFormData pre ∧
    (onSubmitSuccess pre st).1.isOpen = false :=
  ⟨rfl, rfl, rfl, rfl⟩

/-- C1 counterexample: with a whitespace-only operator name on the
identification step, `canProceed` allows advancing while
`validateCurrentStep` reports the operator name missing, so the two
validation verdicts differ. -/
theorem c1_gating_validator_counterexample :
    canProceed env0 fd0 2 = true ∧
    validateMissing env0 fd0 2 = ["Operatörsnamn"] ∧
    ¬(canProceed env0 fd0 2 = true ↔ validateMissing env0 fd0 2 = []) := by
  refine ⟨by decide, by decide, by decide⟩

/-- C1 amended: `canProceed` agrees with `validateCurrentStep` on every step
provided (a) the operator name is empty exactly when its trimmed form is
empty, and (b) the question filter is inactive (the checklist does not use
work tasks or no work task is selected); without these the two diverge,
since `canProceed` skips trimming and checks the unfiltered question list. -/
theorem c1_amended_gating_matches_validator (env : Env) (fd : FormData)
    (step : Nat)
    (hop : fd.operatorName = "" ↔ strTrim fd.operatorName = "")
    (hfl : includeWT env = false ∨ truthyId fd.workTaskId = false) :
    canProceed env fd step = true ↔ validateMissing env fd step = [] := by
  have hopb : (strTrim fd.operatorName == "") = (fd.operatorName == "") := by
    by_cases h : fd.operatorName = ""
    · rw [show strTrim fd.operatorName = "" from hop.mp h, h]
    · have h2 : ¬ strTrim fd.operatorName = "" := fun hc => h (hop.mpr hc)
      simp [h, h2]
  by_cases hs2 : step = 2
  · subst hs2
    simp only [canProceed, validateMissing, if_pos rfl, hopb]
    cases hA : (fd.operatorName == "") <;>
    cases hB : includeWT env <;>
    cases hB2 : truthyId fd.workTaskId <;>
    cases hWS : includeWS env <;>
    cases hC : ((env.workTasks.find? (fun t => fd.workTaskId == some t.id)).any
        (fun t => t.hasStations && !truthyId fd.workStationId)) <;>
    cases hD : includeSh env <;>
    cases hE : truthyId fd.shiftId <;>
    simp_all
  · by_cases hs3 : 3 ≤ step
    · simp only [canProceed, validateMissing, if_neg hs2, if_pos hs3]
      cases hcat : (categoriesWithQuestions env fd)[step - 3]? with
      | none => simp
      | some cat =>
          dsimp only
          rw [filteredQuestions_inactive env fd hfl, foldl_pushIf_eq]
          simp only [List.nil_append, List.map_eq_nil_iff, List.filter_eq_nil_iff,
            List.all_eq_true, List.mem_filter, Bool.and_eq_true, beq_iff_eq,
            Bool.not_eq_true', and_imp, not_and]
          simp [Bool.not_eq_true]
    · simp [canProceed, validateMissing, hs2, hs3]

/-- C1 amended witness: on a question step with the filter inactive and a
non-whitespace operator name the two verdicts coincide. -/
theorem c1_amended_witness :
    canProceed env1 fd1 3 = true ↔ validateMissing env1 fd1 3 = [] :=
  c1_amended_gating_matches_validator env1 fd1 3 (by decide) (Or.inl (by decide))

/-- C4: on the current question step, a required checkbox-type question is
reported missing by the validator exactly when its stored response is not the
boolean `true`; in particular `false`, `undefined`/absent and `null` all count
as missing. -/
theorem c4_required_checkbox (env : Env) (fd : FormData) (step : Nat)
    (cat : Category) (q : Question)
    (hstep : 3 ≤ step)
    (hcat : (categoriesWithQuestions env fd)[step - 3]? = some cat)
    (hqmem : q ∈ filteredQuestions env fd)
    (hqcat : q.categoryId = cat.id)
    (hreq : q.isRequired = true)
    (hty : q.type = "check")
    (hnd : (((filteredQuestions env fd).filter
        (fun p => p.categoryId == cat.id)).map qLabel).Nodup) :
    qLabel q ∈ validateMissing env fd step ↔
      getResponse fd q.id ≠ Val.vBool true := by
  have hs2 : step ≠ 2 := by omega
  have hqlq : q ∈ (filteredQuestions env fd).filter
      (fun p => p.categoryId == cat.id) :=
    List.mem_filter.mpr ⟨hqmem, by simp [hqcat]⟩
  simp only [validateMissing, if_neg hs2, if_pos hstep, hcat]
  rw [foldl_pushIf_eq]
  simp only [List.nil_append, List.mem_map]
  constructor
  · rintro ⟨q', hq', hlab⟩
    have hq'lq : q' ∈ (filteredQuestions env fd).filter
        (fun p => p.categoryId == cat.id) := List.mem_of_mem_filter hq'
    have hqq : q' = q := List.inj_on_of_nodup_map hnd hq'lq hqlq hlab
    subst hqq
    have hmiss : questionMissingB fd q' = true := List.of_mem_filter hq'
    simpa [questionMissingB, hreq, hty] using hmiss
  · intro hresp
    exact ⟨q, List.mem_filter.mpr ⟨hqlq, by
      simp [questionMissingB, hreq, hty, hresp]⟩, rfl⟩

/-- C4 witness: the required checkbox `q1` with no stored response is reported
missing on its question step. -/
theorem c4_witness :
    qLabel q1 ∈ validateMissing env1 fd1 3 ↔
      getResponse fd1 q1.id ≠ Val.vBool true :=
  c4_required_checkbox env1 fd1 3 cat1 q1 (by decide) (by decide) (by decide)
    (by decide) (by decide) (by decide) (by decide)

/-- C5: on the current question step, a required question whose type is not
`"check"` is reported missing by the validator exactly when its stored
response is `undefined` (also for an absent key), `null`, or the empty
string; boolean `false` and numeric `0` therefore count as satisfied. -/
theorem c5_required_non_checkbox (env : Env) (fd : FormData) (step : Nat)
    (cat : Category) (q : Question)
    (hstep : 3 ≤ step)
    (hcat : (categoriesWithQuestions env fd)[step - 3]? = some cat)
    (hqmem : q ∈ filteredQuestions env fd)
    (hqcat : q.categoryId = cat.id)
    (hreq : q.isRequired = true)
    (hty : q.type ≠ "check")
    (hnd : (((filteredQuestions env fd).filter
        (fun p => p.categoryId == cat.id)).map qLabel).Nodup) :
    (qLabel q ∈ validateMissing env fd step ↔
      (getResponse fd q.id = Val.vUndef ∨ getResponse fd q.id = Val.vNull ∨
        getResponse fd q.id = Val.vStr "")) ∧
    (getResponse fd q.id = Val.vBool false →
      qLabel q ∉ validateMissing env fd step) ∧
    (getResponse fd q.id = Val.vNum 0 →
      qLabel q ∉ validateMissing env fd step) := by
  have hs2 : step ≠ 2 := by omega
  have hqlq : q ∈ (filteredQuestions env fd).filter
      (fun p => p.categoryId == cat.id) :=
    List.mem_filter.mpr ⟨hqmem, by simp [hqcat]⟩
  have hmain : qLabel q ∈ validateMissing env fd step ↔
      (getResponse fd q.id = Val.vUndef ∨ getResponse fd q.id = Val.vNull ∨
        getResponse fd q.id = Val.vStr "") := by
    simp only [validateMissing, if_neg hs2, if_pos hstep, hcat]
    rw [foldl_pushIf_eq]
    simp only [List.nil_append, List.mem_map]
    constructor
    · rintro ⟨q', hq', hlab⟩
      have hq'lq : q' ∈ (filteredQuestions env fd).filter
          (fun p => p.categoryId == cat.id) := List.mem_of_mem_filter hq'
      have hqq : q' = q := List.inj_on_of_nodup_map hnd hq'lq hqlq hlab
      subst hqq
      have hmiss : questionMissingB fd q' = true := List.of_mem_filter hq'
      simpa [questionMissingB, hreq, hty, respEmpty, or_assoc] using hmiss
    · intro hresp
      exact ⟨q, List.mem_filter.mpr ⟨hqlq, by
        simp [questionMissingB, hreq, hty, respEmpty]
        rcases hresp with h | h | h <;> simp [h]⟩, rfl⟩
  refine ⟨hmain, ?_, ?_⟩
  · intro h hmem
    rcases hmain.mp hmem with h1 | h1 | h1 <;> rw [h] at h1 <;> exact Val.noConfusion h1
  · intro h hmem
    rcases hmain.mp hmem with h1 | h1 | h1 <;> rw [h] at h1 <;> exact Val.noConfusion h1

/-- C5 witness: the required number question `q2` with stored response `0` is
not reported missing. -/
theorem c5_witness :
    qLabel q2 ∉ validateMissing env1 fd1 3 :=
  (c5_required_non_checkbox env1 fd1 3 cat1 q2 (by decide) (by decide)
    (by decide) (by decide) (by decide) (by decide) (by decide)).2.2 (by decide)

/-- When the work-task ids are pairwise distinct, the first work task matching
the selected id satisfies a boolean test iff some listed work task carries the
selected id and satisfies it. -/
lemma find?_any_iff_nodup (l : List WorkTask)
    (hnd : (l.map WorkTask.id).Nodup) (w : Option Int) (f : WorkTask → Bool) :
    ((l.find? (fun t => w == some t.id)).any f = true ↔
      ∃ t ∈ l, w = some t.id ∧ f t = true) := by
  induction l with
  | nil => simp
  | cons x xs ih =>
      simp only [List.map_cons, List.nodup_cons] at hnd
      obtain ⟨hx, hnd'⟩ := hnd
      by_cases hw : w = some x.id
      · rw [List.find?_cons_of_pos _ (by simp [hw])]
        simp only [Option.any_some]
        constructor
        · intro hf; exact ⟨x, List.mem_cons_self x xs, hw, hf⟩
        · rintro ⟨t, ht, hwt, hft⟩
          rcases List.mem_cons.mp ht with h | h
          · subst h; exact hft
          · exfalso
            apply hx
            have : t.id = x.id := by
              rw [hw] at hwt; exact (Option.some.injEq _ _ ▸ hwt.symm)
            exact List.mem_map.mpr ⟨t, h, this⟩
      · rw [List.find?_cons_of_neg _ (by simp [hw])]
        rw [ih hnd']
        constructor
        · rintro ⟨t, ht, hwt, hft⟩
          exact ⟨t, List.mem_cons_of_mem x ht, hwt, hft⟩
        · rintro ⟨t, ht, hwt, hft⟩
          rcases List.mem_cons.mp ht with h | h
          · subst h; exact absurd hwt hw
          · exact ⟨t, h, hwt, hft⟩

/-- C6: on the identification step (with pairwise-distinct work-task ids) the
validator collects, in this order: the operator-name label iff the operator
name trims to empty; the work-task label iff the checklist includes work tasks
and none is selected; the work-station label iff the checklist includes work
stations, a work task is selected, that task has stations, and no station is
selected; the shift label iff the checklist includes shifts and none is
selected. -/
theorem c6_identification_step (env : Env) (fd : FormData)
    (hnd : (env.workTasks.map WorkTask.id).Nodup) :
    validateMissing env fd 2 =
      (if strTrim fd.operatorName = "" then ["Operatörsnamn"] else [])
      ++ (if includeWT env = true ∧ truthyId fd.workTaskId = false
          then ["Arbetsuppgift"] else [])
      ++ (if includeWS env = true ∧ truthyId fd.workTaskId = true ∧
            ∃ t ∈ env.workTasks, fd.workTaskId = some t.id ∧
              t.hasStations = true ∧ truthyId fd.workStationId = false
          then ["Arbetsstation"] else [])
      ++ (if includeSh env = true ∧ truthyId fd.shiftId = false
          then ["Skift"] else []) := by
  have h1 : (if strTrim fd.operatorName == "" then ["Operatörsnamn"]
        else ([] : List String))
      = (if strTrim fd.operatorName = "" then ["Operatörsnamn"] else []) := by
    by_cases h : strTrim fd.operatorName = "" <;> simp [h]
  have h2 : (if includeWT env && !truthyId fd.workTaskId then ["Arbetsuppgift"]
        else ([] : List String))
      = (if includeWT env = true ∧ truthyId fd.workTaskId = false
          then ["Arbetsuppgift"] else []) := by
    cases hA : includeWT env <;> cases hB : truthyId fd.workTaskId <;> simp
  have h4 : (if includeSh env && !truthyId fd.shiftId then ["Skift"]
        else ([] : List String))
      = (if includeSh env = true ∧ truthyId fd.shiftId = false
          then ["Skift"] else []) := by
    cases hA : includeSh env <;> cases hB : truthyId fd.shiftId <;> simp
  have h3 : (if includeWS env && truthyId fd.workTaskId then
        (if (env.workTasks.find? (fun t => fd.workTaskId == some t.id)).any
              (fun t => t.hasStations && !truthyId fd.workStationId)
         then ["Arbetsstation"] else []) else ([] : List String))
      = (if includeWS env = true ∧ truthyId fd.workTaskId = true ∧
            ∃ t ∈ env.workTasks, fd.workTaskId = some t.id ∧
              t.hasStations = true ∧ truthyId fd.workStationId = false
          then ["Arbetsstation"] else []) := by
    cases hA : includeWS env
    · simp [hA]
    · cases hB : truthyId fd.workTaskId
      · simp [hB]
      · simp only [hA, hB, Bool.and_self, if_pos rfl, true_and]
        by_cases hE : ∃ t ∈ env.workTasks, fd.workTaskId = some t.id ∧
            t.hasStations = true ∧ truthyId fd.workStationId = false
        · have hany : ((env.workTasks.find?
                (fun t => fd.workTaskId == some t.id)).any
                (fun t => t.hasStations && !truthyId fd.workStationId)) = true := by
            rw [find?_any_iff_nodup env.workTasks hnd fd.workTaskId]
            obtain ⟨t, ht, hwt, hhs, hst⟩ := hE
            exact ⟨t, ht, hwt, by simp [hhs, hst]⟩
          simp [hE, hany]
        · have hany : ¬ ((env.workTasks.find?
                (fun t => fd.workTaskId == some t.id)).any
                (fun t => t.hasStations && !truthyId fd.workStationId)) = true := by
            intro hc
            rw [find?_any_iff_nodup env.workTasks hnd fd.workTaskId] at hc
            obtain ⟨t, ht, hwt, hft⟩ := hc
            exact hE ⟨t, ht, hwt, by simpa using hft⟩
          simp [hE, hany]
  calc validateMissing env fd 2
      = (if strTrim fd.operatorName == "" then ["Operatörsnamn"] else [])
        ++ (if includeWT env && !truthyId fd.workTaskId then ["Arbetsuppgift"]
            else [])
        ++ (if includeWS env && truthyId fd.workTaskId then
              (if (env.workTasks.find? (fun t => fd.workTaskId == some t.id)).any
                    (fun t => t.hasStations && !truthyId fd.workStationId)
               then ["Arbetsstation"] else [])
            else [])
        ++ (if includeSh env && !truthyId fd.shiftId then ["Skift"] else []) := by
        simp [validateMissing]
    _ = _ := by rw [h1, h2, h3, h4]

/-- C6 witness (spec Scenario A): checklist with work tasks and stations, task
1 selected with `hasStations`, no station selected, name and task fine: the
validator reports exactly the work-station label. -/
theorem c6_witness : validateMissing env2 fd2 2 = ["Arbetsstation"] := by
  rw [c6_identification_step env2 fd2 (by decide)]
  decide

/-- C7: the submission payload always carries `checklistId`, `operatorName`,
the accumulated `responses` unchanged and `isCompleted = true`, and contains
each of the work-task / work-station / shift keys exactly when the
corresponding checklist flag is set. -/
theorem c7_payload_shape (env : Env) (fd : FormData) (c : Checklist)
    (hc : env.currentChecklist = some c) :
    (handleSubmit env fd).checklistId = fd.checklistId ∧
    (handleSubmit env fd).operatorName = fd.operatorName ∧
    (handleSubmit env fd).responses = fd.responses ∧
    (handleSubmit env fd).isCompleted = true ∧
    ((handleSubmit env fd).workTaskId ≠ none ↔ c.includeWorkTasks = true) ∧
    ((handleSubmit env fd).workStationId ≠ none ↔ c.includeWorkStations = true) ∧
    ((handleSubmit env fd).shiftId ≠ none ↔ c.includeShifts = true) := by
  have h1 : includeWT env = c.includeWorkTasks := by simp [includeWT, hc]
  have h2 : includeWS env = c.includeWorkStations := by simp [includeWS, hc]
  have h3 : includeSh env = c.includeShifts := by simp [includeSh, hc]
  refine ⟨rfl, rfl, rfl, rfl, ?_, ?_, ?_⟩
  · simp only [handleSubmit, h1]
    cases c.includeWorkTasks <;> simp
  · simp only [handleSubmit, h2]
    cases c.includeWorkStations <;> simp
  · simp only [handleSubmit, h3]
    cases c.includeShifts <;> simp

/-- C7 witness: for checklist `cl2` (tasks and stations on, shifts off) the
payload keeps the form fields, is completed, and carries exactly the keys the
flags request. -/
theorem c7_witness :
    (handleSubmit env2 fd2).checklistId = fd2.checklistId ∧
    (handleSubmit env2 fd2).operatorName = fd2.operatorName ∧
    (handleSubmit env2 fd2).responses = fd2.responses ∧
    (handleSubmit env2 fd2).isCompleted = true ∧
    ((handleSubmit env2 fd2).workTaskId ≠ none ↔ cl2.includeWorkTasks = true) ∧
    ((handleSubmit env2 fd2).workStationId ≠ none ↔
      cl2.includeWorkStations = true) ∧
    ((handleSubmit env2 fd2).shiftId ≠ none ↔ cl2.includeShifts = true) :=
  c7_payload_shape env2 fd2 cl2 rfl

/-- C9: with zero categories with questions, `totalSteps` is 1 and, when the
identification step validates, "next" submits rather than advancing. -/
theorem c9_zero_categories (env : Env) (fd : FormData)
    (h : categoriesWithQuestions env fd = []) :
    totalSteps env fd = 1 ∧
    (validateCurrentStep env fd 2 = true →
      handleNext env fd 2 = NextAction.submit) := by
  have ht : totalSteps env fd = 1 := by simp [totalSteps, h]
  refine ⟨ht, ?_⟩
  intro hv
  simp [handleNext, hv, ht]

/-- C9 witness: a checklist with no categories submits straight from the
identification step. -/
theorem c9_witness : handleNext env0 fd3 2 = NextAction.submit :=
  (c9_zero_categories env0 fd3 (by decide)).2 (by decide)

/-- C10: on a question step whose category offset is out of range of the
planned category list, the validator collects nothing and both the validator
and the gating check treat the step as valid. -/
theorem c10_out_of_range_step (env : Env) (fd : FormData) (step : Nat)
    (hstep : 3 ≤ step)
    (hnone : (categoriesWithQuestions env fd)[step - 3]? = none) :
    validateMissing env fd step = [] ∧
    validateCurrentStep env fd step = true ∧
    canProceed env fd step = true := by
  have hs2 : step ≠ 2 := by omega
  have h1 : validateMissing env fd step = [] := by
    simp [validateMissing, hs2, hstep, hnone]
  refine ⟨h1, ?_, ?_⟩
  · simp [validateCurrentStep, h1]
  · simp [canProceed, hs2, hstep, hnone]

/-- C10 witness: step 5 with a single planned category (offset 2 out of
range) is treated as valid by both checks. -/
theorem c10_witness :
    validateMissing env1 fd1 5 = [] ∧
    validateCurrentStep env1 fd1 5 = true ∧
    canProceed env1 fd1 5 = true :=
  c10_out_of_range_step env1 fd1 5 (by decide) (by decide)
